import Mathlib

/-!
Shallow embedding of the ooopsi fatal-fault reporting engine
(`src/handlers.cpp`) and proofs about its classification pipeline.

Modelling conventions:
* machine addresses (`uintptr_t`) are `Nat`; C `int` values are `Int`;
* a C string buffer written by `snprintf(buf, n, ...)` keeps at most `n - 1`
  characters, modelled by `truncate (n - 1)`; characters model bytes;
* a null pointer is `Option.none`;
* external collaborators (the demangler, `strerror`) are function/string
  parameters of the embedded operations.
-/

namespace Ooopsi

/-- Keeps the first `n` characters of a string, like an `snprintf`-style
bounded write into a buffer of `n + 1` bytes. -/
def truncate (n : Nat) (s : String) : String := ⟨s.data.take n⟩

/-- The string `sub` occurs contiguously inside `s`. -/
def containsStr (s sub : String) : Prop := ∃ a b, s = a ++ sub ++ b

/-- Lowercase hexadecimal rendering of a machine address. -/
def hexStr (a : Nat) : String := ⟨Nat.toDigits 16 a⟩

/-- Modelled from the spec: the ReasonFormatter (`formatReason`, whose
definition is not under `src/`). Renders `<pfx><CATEGORY>[ (<detail>)][,
address 0x<hex>]` into a 256-byte buffer, truncating rather than
overflowing. The report prefix is a parameter because its literal value is
also not under `src/`. -/
def formatReason (pfx category : String) (detail : Option String)
    (addr : Option Nat) : String :=
  truncate 255 (pfx ++ category ++
    (match detail with
     | some d => " (" ++ d ++ ")"
     | none => "") ++
    (match addr with
     | some a => ", address 0x" ++ hexStr a
     | none => ""))

/-- Arguments of one call to the abort sequencer
(`abort(reason, printStackTrace, inSignalHandler, faultAddr)`). -/
structure AbortCall where
  reason : String
  wantTrace : Bool
  inFaultCtx : Bool
  instrAddr : Option Nat
  deriving Repr, DecidableEq

/-- The fields of `siginfo_t` read by the handler. -/
structure SigInfo where
  si_code : Int
  si_addr : Nat
  deriving Repr, DecidableEq

/-- The registers the handler reads from `ucontext_t` (x86-64). -/
structure UContext where
  rip : Nat
  rsp : Nat
  deriving Repr, DecidableEq

/-- Linux x86-64 signal number of SIGABRT. -/
def SIGABRT : Int := 6
/-- Linux x86-64 signal number of SIGSEGV. -/
def SIGSEGV : Int := 11
/-- Linux x86-64 signal number of SIGBUS. -/
def SIGBUS : Int := 7
/-- Linux x86-64 signal number of SIGILL. -/
def SIGILL : Int := 4
/-- Linux x86-64 signal number of SIGFPE. -/
def SIGFPE : Int := 8

/-- SIGSEGV sub-reason code SEGV_MAPERR. -/
def SEGV_MAPERR : Int := 1
/-- SIGSEGV sub-reason code SEGV_ACCERR. -/
def SEGV_ACCERR : Int := 2
/-- SIGSEGV sub-reason code SEGV_BNDERR. -/
def SEGV_BNDERR : Int := 3
/-- SIGSEGV sub-reason code SEGV_PKUERR. -/
def SEGV_PKUERR : Int := 4

/-- SIGFPE sub-reason code FPE_INTDIV. -/
def FPE_INTDIV : Int := 1
/-- SIGFPE sub-reason code FPE_INTOVF. -/
def FPE_INTOVF : Int := 2
/-- SIGFPE sub-reason code FPE_FLTDIV. -/
def FPE_FLTDIV : Int := 3
/-- SIGFPE sub-reason code FPE_FLTOVF. -/
def FPE_FLTOVF : Int := 4
/-- SIGFPE sub-reason code FPE_FLTUND. -/
def FPE_FLTUND : Int := 5
/-- SIGFPE sub-reason code FPE_FLTRES. -/
def FPE_FLTRES : Int := 6
/-- SIGFPE sub-reason code FPE_FLTINV. -/
def FPE_FLTINV : Int := 7
/-- SIGFPE sub-reason code FPE_FLTSUB. -/
def FPE_FLTSUB : Int := 8

/-- Distance limit of the stack-overflow heuristic (`constexpr auto
rangeLimit = 1024`). -/
def rangeLimit : Nat := 1024

/-- The `what`/`detail`/`addr` classification the POSIX `signalHandler`
computes before formatting, together with the fault (instruction) address
recovered from the register context. -/
structure HandlerResult where
  what : String
  detail : Option String
  addr : Option Nat
  faultAddr : Option Nat
  deriving Repr, DecidableEq

/-- Classification part of the POSIX `signalHandler` (`handlers.cpp`,
`switch (sig)`): maps the signal number, `siginfo_t` and register context
to the arguments later passed to `formatReason`. -/
def signalHandler (sig : Int) (info : SigInfo) (ctx : Option UContext) :
    HandlerResult :=
  let faultAddr := ctx.map UContext.rip
  if sig = SIGABRT then
    { what := "std::abort()", detail := none, addr := none,
      faultAddr := faultAddr }
  else if sig = SIGSEGV then
    let detail : Option String :=
      if info.si_code = SEGV_MAPERR then
        match ctx with
        | some c =>
          if info.si_addr < c.rsp ∧ c.rsp - info.si_addr < rangeLimit then
            some "stack overflow"
          else
            some "address not mapped to object"
        | none => some "address not mapped to object"
      else if info.si_code = SEGV_ACCERR then
        some "invalid permissions for mapped object"
      else if info.si_code = SEGV_BNDERR then
        some "failed address bound checks"
      else if info.si_code = SEGV_PKUERR then
        some "access was denied by memory protection keys"
      else none
    { what := "SEGMENTATION FAULT", detail := detail,
      addr := some info.si_addr, faultAddr := faultAddr }
  else if sig = SIGBUS then
    let detail : Option String :=
      if info.si_code = 1 then some "invalid address alignment"
      else if info.si_code = 2 then some "nonexistent physical address"
      else if info.si_code = 3 then some "object-specific hardware error"
      else if info.si_code = 4 then
        some "hardware memory error consumed on a machine check"
      else if info.si_code = 5 then
        some "hardware memory error detected in process but not consumed"
      else none
    { what := "BUS ERROR", detail := detail, addr := some info.si_addr,
      faultAddr := faultAddr }
  else if sig = SIGILL then
    let detail : Option String :=
      if info.si_code = 1 then some "illegal opcode"
      else if info.si_code = 2 then some "illegal operand"
      else if info.si_code = 3 then some "illegal addressing mode"
      else if info.si_code = 4 then some "illegal trap"
      else if info.si_code = 5 then some "privileged opcode"
      else if info.si_code = 6 then some "privileged register"
      else if info.si_code = 7 then some "coprocessor error"
      else if info.si_code = 8 then some "internal stack error"
      else none
    { what := "ILLEGAL INSTRUCTION", detail := detail,
      addr := some info.si_addr, faultAddr := faultAddr }
  else if sig = SIGFPE then
    let detail : Option String :=
      if info.si_code = FPE_INTDIV then some "integer divide by zero"
      else if info.si_code = FPE_INTOVF then some "integer overflow"
      else if info.si_code = FPE_FLTDIV then
        some "floating-point divide by zero"
      else if info.si_code = FPE_FLTOVF then some "floating-point overflow"
      else if info.si_code = FPE_FLTUND then some "floating-point underflow"
      else if info.si_code = FPE_FLTRES then
        some "floating-point inexact result"
      else if info.si_code = FPE_FLTINV then
        some "floating-point invalid operation"
      else if info.si_code = FPE_FLTSUB then some "subscript out of range"
      else none
    { what := "FLOATING POINT ERROR", detail := detail,
      addr := some info.si_addr, faultAddr := faultAddr }
  else
    { what := truncate 63 ("SIGNAL " ++ toString sig), detail := none,
      addr := none, faultAddr := faultAddr }

/-- Tail of the POSIX `signalHandler`: format the reason and hand off to the
abort sequencer (`formatReason(reason, what, detail, addr);
abort(reason, true, true, faultAddr);`). -/
def signalAbort (pfx : String) (sig : Int) (info : SigInfo)
    (ctx : Option UContext) : AbortCall :=
  let r := signalHandler sig info ctx
  { reason := formatReason pfx r.what r.detail r.addr, wantTrace := true,
    inFaultCtx := true, instrAddr := r.faultAddr }

/-- The structured-exception codes `onWindowsException` distinguishes. The
numeric values live in `windows.h` (not under the sources), so recognized
codes are abstract constructors and any unrecognized code carries its raw
numeric value. -/
inductive WinExcCode where
  | accessViolation
  | arrayBoundsExceeded
  | breakpoint
  | datatypeMisalignment
  | fltDenormalOperand
  | fltDivideByZero
  | fltInexactResult
  | fltInvalidOperation
  | fltOverflow
  | fltStackCheck
  | fltUnderflow
  | illegalInstruction
  | inPageError
  | intDivideByZero
  | intOverflow
  | invalidDisposition
  | noncontinuableException
  | privInstruction
  | singleStep
  | stackOverflow
  | other (code : Nat)
  deriving Repr, DecidableEq

/-- The fields of `EXCEPTION_RECORD` read by `onWindowsException`:
`ExceptionCode`, `NumberParameters`, `ExceptionInformation[1]` (faulting
virtual address), `ExceptionInformation[2]` (NTSTATUS for paging faults)
and `ExceptionAddress`. -/
structure ExceptionRecord where
  exceptionCode : WinExcCode
  numberParameters : Nat
  info1 : Nat
  info2 : Nat
  exceptionAddress : Nat
  deriving Repr, DecidableEq

/-- The `what`/`detail`/`addr` classification `onWindowsException` computes
in its `switch (excRec.ExceptionCode)`. -/
structure WinClassification where
  what : String
  detail : Option String
  addr : Option Nat
  deriving Repr, DecidableEq

/-- Classification part of `onWindowsException` (`handlers.cpp`): the
`switch` mapping of the exception code to the `formatReason` arguments. -/
def winClassify (er : ExceptionRecord) : WinClassification :=
  match er.exceptionCode with
  | .accessViolation =>
    { what := "SEGMENTATION FAULT", detail := none,
      addr := if 2 ≤ er.numberParameters then some er.info1 else none }
  | .arrayBoundsExceeded =>
    { what := "EXCEPTION_ARRAY_BOUNDS_EXCEEDED", detail := none, addr := none }
  | .breakpoint =>
    { what := "EXCEPTION_BREAKPOINT", detail := none, addr := none }
  | .datatypeMisalignment =>
    { what := "EXCEPTION_DATATYPE_MISALIGNMENT", detail := none, addr := none }
  | .fltDenormalOperand =>
    { what := "FLOATING POINT ERROR",
      detail := some "floating-point denormal operand", addr := none }
  | .fltDivideByZero =>
    { what := "FLOATING POINT ERROR",
      detail := some "floating-point divide by zero", addr := none }
  | .fltInexactResult =>
    { what := "FLOATING POINT ERROR",
      detail := some " (floating-point inexact result)", addr := none }
  | .fltInvalidOperation =>
    { what := "FLOATING POINT ERROR",
      detail := some "floating-point invalid operation", addr := none }
  | .fltOverflow =>
    { what := "FLOATING POINT ERROR",
      detail := some "floating-point overflow", addr := none }
  | .fltStackCheck =>
    { what := "FLOATING POINT ERROR",
      detail := some "floating-point stack over/underflow", addr := none }
  | .fltUnderflow =>
    { what := "FLOATING POINT ERROR",
      detail := some "floating-point underflow", addr := none }
  | .illegalInstruction =>
    { what := "ILLEGAL INSTRUCTION", detail := none, addr := none }
  | .inPageError =>
    if 3 ≤ er.numberParameters then
      { what := "PAGE ERROR",
        detail := some (truncate 63 ("NTSTATUS=" ++ toString er.info2)),
        addr := some er.info1 }
    else
      { what := "PAGE ERROR", detail := none, addr := none }
  | .intDivideByZero =>
    { what := "FLOATING POINT ERROR",
      detail := some "integer divide by zero", addr := none }
  | .intOverflow =>
    { what := "FLOATING POINT ERROR",
      detail := some "integer overflow", addr := none }
  | .invalidDisposition =>
    { what := "INVALID EXCEPTION HANDLER DISPOSITION", detail := none,
      addr := none }
  | .noncontinuableException =>
    { what := "NONCONTINUABLE EXCEPTION", detail := none, addr := none }
  | .privInstruction =>
    { what := "EXCEPTION_PRIV_INSTRUCTION", detail := none, addr := none }
  | .singleStep =>
    { what := "EXCEPTION_SINGLE_STEP", detail := none, addr := none }
  | .stackOverflow =>
    { what := "???", detail := none, addr := none }
  | .other code =>
    { what := "Unrecognized Exception",
      detail := some (truncate 63 ("exception code = " ++ toString code)),
      addr := none }

/-- Tail of `onWindowsException`: a stack trace is requested and the reason
formatted only when the exception is not EXCEPTION_STACK_OVERFLOW;
otherwise a fixed stack-overflow reason is handed off with no trace. -/
def onWindowsException (pfx : String) (er : ExceptionRecord) : AbortCall :=
  let c := winClassify er
  if er.exceptionCode ≠ WinExcCode.stackOverflow then
    { reason := formatReason pfx c.what c.detail c.addr, wantTrace := true,
      inFaultCtx := true, instrAddr := some er.exceptionAddress }
  else
    { reason := pfx ++ "SEGMENTATION FAULT (stack overflow)",
      wantTrace := false, inFaultCtx := true, instrAddr := none }

/-- The dynamic type of an in-flight C++ exception as distinguished by the
ordered catch sequence in `onTerminate`: a `std::system_error` (message,
category name, numeric code), any other `std::exception` (mangled dynamic
type name and message), a thrown `const char*` (null or a string), or any
other thrown value. -/
inductive CppException where
  | sysError (msg catName : String) (code : Int)
  | stdExc (mangledName msg : String)
  | charPtr (s : Option String)
  | otherThrow
  deriving Repr

/-- The detail string `onTerminate` builds for an in-flight exception via
its ordered catch sequence. `dem` is the external demangler, which writes
into a 128-byte buffer; every `snprintf` targets the 128-byte `detail`
buffer. -/
def onTerminateDetail (dem : String → String) : CppException → String
  | .sysError msg catName code =>
    truncate 127 ("std::system_error: \"" ++ msg ++ "\" (" ++ catName ++
      ":" ++ toString code ++ ")")
  | .stdExc mangledName msg =>
    truncate 127 (truncate 127 (dem mangledName) ++ ": \"" ++ msg ++ "\"")
  | .charPtr none => truncate 127 "exception (const char*): \"<null>\""
  | .charPtr (some s) =>
    truncate 127 ("exception (const char*): \"" ++ s ++ "\"")
  | .otherThrow => "unknown exception"

/-- The terminate handler `onTerminate` (`handlers.cpp`): with an in-flight
exception it classifies it into a detail for category "std::terminate()"
and hands off requesting a stack trace outside fault context; with no
in-flight exception the non-Windows fallback reports the bare category.
(The Windows-only return-address probing of the no-exception branch is not
modelled.) -/
def onTerminate (pfx : String) (dem : String → String)
    (exc : Option CppException) : AbortCall :=
  match exc with
  | some e =>
    { reason := formatReason pfx "std::terminate()"
        (some (onTerminateDetail dem e)) none,
      wantTrace := true, inFaultCtx := false, instrAddr := none }
  | none =>
    { reason := formatReason pfx "std::terminate()" none none,
      wantTrace := true, inFaultCtx := false, instrAddr := none }

/-- One installation call the `HandlerSetup` constructor makes into the
OS/runtime: `std::set_terminate`, `sigaltstack`, or `sigaction(sig, ...)`. -/
inductive OsCall where
  | setTerminateCall
  | sigaltstackCall
  | sigactionCall (sig : Int)
  deriving Repr, DecidableEq

/-- Outcome of the OS calls the constructor makes: whether registering the
alternate stack succeeds, whether installing the handler for a given signal
succeeds, and the `strerror(errno)` text reported on failure. -/
structure OsModel where
  sigaltstackOk : Bool
  sigactionOk : Int → Bool
  errnoText : String

/-- Process-wide registration state touched by the constructor:
`s_handlersRegistered`, whether the terminate handler, the alternate stack
and the individual signal handlers are installed. -/
structure ProcState where
  handlersRegistered : Bool
  terminateHandlerSet : Bool
  altStackSet : Bool
  sigInstalled : List Int
  deriving Repr, DecidableEq

/-- Result of one construction: either it finished with a new process
state, or a failing OS call routed through the abort sequencer. -/
inductive CtorResult where
  | done (s : ProcState)
  | aborted (call : AbortCall)
  deriving Repr, DecidableEq

/-- Modelled from the spec: the alternate-stack size constant
`s_ALT_STACK_SIZE` is defined in a header that is not under the sources;
the spec only requires it to be at least the platform's minimum
signal-stack size, and no claim depends on its value. -/
def s_ALT_STACK_SIZE : Int := 65536

/-- The constructor's `err` lambda: format
`<what>(<param>) failed: <strerror(errno)>` into a 256-byte buffer and hand
it directly to the abort sequencer, requesting a stack trace outside of
fault context. -/
def errAbort (os : OsModel) (what : String) (param : Int) : AbortCall :=
  { reason := truncate 255 (what ++ "(" ++ toString param ++ ") failed: " ++
      os.errnoText),
    wantTrace := true, inFaultCtx := false, instrAddr := none }

/-- The `for (int sig : { SIGABRT, SIGSEGV, SIGBUS, SIGILL, SIGFPE })`
loop: install the handler for each signal in turn, aborting via `err` at
the first failing `sigaction`. Returns the OS calls made (appended to
`calls`) together with the outcome. -/
def installSignals (os : OsModel) (s : ProcState) (calls : List OsCall) :
    List Int → List OsCall × CtorResult
  | [] => (calls, .done s)
  | sig :: rest =>
    if os.sigactionOk sig then
      installSignals os { s with sigInstalled := s.sigInstalled ++ [sig] }
        (calls ++ [.sigactionCall sig]) rest
    else
      (calls ++ [.sigactionCall sig], .aborted (errAbort os "sigaction" sig))

/-- The `HandlerSetup::HandlerSetup()` constructor (POSIX branch): honour
the OOOPSI_DISABLE_HANDLERS override, return if already registered,
otherwise set the registration flag, install the terminate handler,
register the alternate stack via `sigaltstack` and install the five signal
handlers, aborting via `err` at the first failing OS call. `env` is the
value of `getenv("OOOPSI_DISABLE_HANDLERS")`. -/
def handlerSetupCtor (env : Option String) (os : OsModel) (s : ProcState) :
    List OsCall × CtorResult :=
  if env = some "1" then ([], .done s)
  else if s.handlersRegistered then ([], .done s)
  else
    let s1 : ProcState :=
      { s with handlersRegistered := true, terminateHandlerSet := true }
    if os.sigaltstackOk then
      installSignals os { s1 with altStackSet := true }
        [.setTerminateCall, .sigaltstackCall]
        [SIGABRT, SIGSEGV, SIGBUS, SIGILL, SIGFPE]
    else
      ([.setTerminateCall, .sigaltstackCall],
        .aborted (errAbort os "sigaltstack" s_ALT_STACK_SIZE))

/-- A process state in which nothing has been installed yet. -/
def initialState : ProcState :=
  { handlersRegistered := false, terminateHandlerSet := false,
    altStackSet := false, sigInstalled := [] }

/-- An OS in which every installation call succeeds. -/
def osAllOk : OsModel :=
  { sigaltstackOk := true, sigactionOk := fun _ => true,
    errnoText := "Success" }

/-- An OS in which registering the alternate stack fails. -/
def osNoAltStack : OsModel :=
  { sigaltstackOk := false, sigactionOk := fun _ => true,
    errnoText := "Cannot allocate memory" }

/-- A bounded write that fits its buffer copies the string unchanged. -/
theorem truncate_of_le (n : Nat) (s : String) (h : s.length ≤ n) :
    truncate n s = s := by
  cases s with
  | mk d => exact congrArg String.mk (List.take_of_length_le h)

/-- A contained string is no longer than its container. -/
theorem containsStr_length {s sub : String} (h : containsStr s sub) :
    sub.length ≤ s.length := by
  obtain ⟨a, b, rfl⟩ := h
  simp only [String.length_append]
  omega

/-- C2: for every SIGSEGV with sub-reason code SEGV_MAPERR and a non-null
register context, the detail is "stack overflow" iff the faulting address
is strictly below the stack pointer and less than 1024 bytes below it;
otherwise the detail stays "address not mapped to object"; the override is
never applied to the other SIGSEGV sub-reason codes. -/
theorem segv_stack_overflow_heuristic (a r p : Nat) (info2 : SigInfo)
    (h2 : info2.si_code ≠ SEGV_MAPERR) :
    ((signalHandler SIGSEGV { si_code := SEGV_MAPERR, si_addr := a }
        (some { rip := r, rsp := p })).detail = some "stack overflow" ↔
      a < p ∧ p - a < 1024)
    ∧ (¬(a < p ∧ p - a < 1024) →
      (signalHandler SIGSEGV { si_code := SEGV_MAPERR, si_addr := a }
        (some { rip := r, rsp := p })).detail =
        some "address not mapped to object")
    ∧ (∀ c : Option UContext,
        (signalHandler SIGSEGV info2 c).detail ≠ some "stack overflow") := by
  have hmain : (signalHandler SIGSEGV { si_code := SEGV_MAPERR, si_addr := a }
      (some { rip := r, rsp := p })).detail =
      if a < p ∧ p - a < 1024 then some "stack overflow"
      else some "address not mapped to object" := rfl
  refine ⟨?_, ?_, ?_⟩
  · rw [hmain]
    by_cases hc : a < p ∧ p - a < 1024
    · simp [hc]
    · simp [hc]
  · intro hno
    rw [hmain, if_neg hno]
  · intro c
    unfold signalHandler
    norm_num [SIGSEGV, SIGABRT]
    rw [if_neg h2]
    split_ifs <;> simp

/-- C2 witness: the heuristic fires at a concrete near-stack fault and the
other sub-reason codes never yield "stack overflow". -/
theorem segv_stack_overflow_heuristic_holds :
    ((signalHandler SIGSEGV { si_code := SEGV_MAPERR, si_addr := 4000 }
        (some { rip := 77, rsp := 4096 })).detail = some "stack overflow" ↔
      4000 < 4096 ∧ 4096 - 4000 < 1024)
    ∧ (¬(4000 < 4096 ∧ 4096 - 4000 < 1024) →
      (signalHandler SIGSEGV { si_code := SEGV_MAPERR, si_addr := 4000 }
        (some { rip := 77, rsp := 4096 })).detail =
        some "address not mapped to object")
    ∧ (∀ c : Option UContext,
        (signalHandler SIGSEGV { si_code := 2, si_addr := 0 } c).detail ≠
          some "stack overflow") :=
  segv_stack_overflow_heuristic 4000 77 4096 { si_code := 2, si_addr := 0 }
    (by decide)

/-- C9: for a signal outside the registered set the POSIX handler still
produces a report whose category is "SIGNAL n" with no detail and hands off
to the abort sequencer. -/
theorem unknown_signal_total (pfx : String) (sig : Int) (info : SigInfo)
    (ctx : Option UContext) (h1 : sig ≠ SIGABRT) (h2 : sig ≠ SIGSEGV)
    (h3 : sig ≠ SIGBUS) (h4 : sig ≠ SIGILL) (h5 : sig ≠ SIGFPE)
    (hlen : ("SIGNAL " ++ toString sig).length ≤ 63) :
    (signalHandler sig info ctx).what = "SIGNAL " ++ toString sig
    ∧ (signalHandler sig info ctx).detail = none
    ∧ signalAbort pfx sig info ctx =
      { reason := formatReason pfx ("SIGNAL " ++ toString sig) none none,
        wantTrace := true, inFaultCtx := true,
        instrAddr := ctx.map UContext.rip } := by
  have hw : signalHandler sig info ctx =
      { what := truncate 63 ("SIGNAL " ++ toString sig), detail := none,
        addr := none, faultAddr := ctx.map UContext.rip } := by
    simp [signalHandler, h1, h2, h3, h4, h5]
  rw [truncate_of_le _ _ hlen] at hw
  refine ⟨by rw [hw], by rw [hw], ?_⟩
  simp [signalAbort, hw]

/-- C9 witness: signal 64 (outside the registered set) is reported as
"SIGNAL 64" with no detail. -/
theorem unknown_signal_total_holds :
    (signalHandler 64 { si_code := 0, si_addr := 0 } none).what =
      "SIGNAL " ++ toString (64 : Int)
    ∧ (signalHandler 64 { si_code := 0, si_addr := 0 } none).detail = none
    ∧ signalAbort "" 64 { si_code := 0, si_addr := 0 } none =
      { reason := formatReason "" ("SIGNAL " ++ toString (64 : Int)) none none,
        wantTrace := true, inFaultCtx := true,
        instrAddr := (none : Option UContext).map UContext.rip } :=
  unknown_signal_total "" 64 { si_code := 0, si_addr := 0 } none (by decide)
    (by decide) (by decide) (by decide) (by decide) (by decide)

/-- C7: a SIGFPE with sub-reason FPE_INTDIV is classified with category
"FLOATING POINT ERROR" and detail "integer divide by zero", so the emitted
report begins, after the prefix, with
"FLOATING POINT ERROR (integer divide by zero". The hypothesis says the
untruncated report fits the 256-byte reason buffer. -/
theorem fpe_intdiv_report (pfx : String) (a : Nat) (ctx : Option UContext)
    (hlen : (pfx ++ "FLOATING POINT ERROR" ++
      (" (" ++ "integer divide by zero" ++ ")") ++
      (", address 0x" ++ hexStr a)).length ≤ 255) :
    (signalHandler SIGFPE { si_code := FPE_INTDIV, si_addr := a } ctx).what =
      "FLOATING POINT ERROR"
    ∧ (signalHandler SIGFPE { si_code := FPE_INTDIV, si_addr := a }
        ctx).detail = some "integer divide by zero"
    ∧ ∃ rest, (signalAbort pfx SIGFPE { si_code := FPE_INTDIV, si_addr := a }
        ctx).reason =
      (pfx ++ "FLOATING POINT ERROR (integer divide by zero") ++ rest := by
  have hr : (signalAbort pfx SIGFPE { si_code := FPE_INTDIV, si_addr := a }
      ctx).reason =
      truncate 255 (pfx ++ "FLOATING POINT ERROR" ++
        (" (" ++ "integer divide by zero" ++ ")") ++
        (", address 0x" ++ hexStr a)) := rfl
  rw [truncate_of_le _ _ hlen] at hr
  have l1 : "FLOATING POINT ERROR" ++ (" (" ++ "integer divide by zero" ++ ")") =
      "FLOATING POINT ERROR (integer divide by zero" ++ ")" := by decide
  refine ⟨rfl, rfl, ⟨")" ++ (", address 0x" ++ hexStr a), ?_⟩⟩
  rw [hr, String.append_assoc pfx, l1, ← String.append_assoc pfx,
    String.append_assoc (pfx ++ "FLOATING POINT ERROR (integer divide by zero")]

/-- C7 witness: at prefix "P: " and fault address 0xff the report is
"P: FLOATING POINT ERROR (integer divide by zero), address 0xff". -/
theorem fpe_intdiv_report_holds :
    (signalHandler SIGFPE { si_code := FPE_INTDIV, si_addr := 255 }
      none).what = "FLOATING POINT ERROR"
    ∧ (signalHandler SIGFPE { si_code := FPE_INTDIV, si_addr := 255 }
        none).detail = some "integer divide by zero"
    ∧ ∃ rest, (signalAbort "P: " SIGFPE
        { si_code := FPE_INTDIV, si_addr := 255 } none).reason =
      ("P: " ++ "FLOATING POINT ERROR (integer divide by zero") ++ rest :=
  fpe_intdiv_report "P: " 255 none (by decide)

/-- C1 counterexample: at a concrete near-stack SEGV_MAPERR fault the POSIX
handler classifies the fault as "stack overflow" and nevertheless hands off
with a stack-trace request, contradicting the claim. -/
theorem posix_stack_overflow_requests_trace :
    (signalHandler SIGSEGV { si_code := SEGV_MAPERR, si_addr := 4000 }
      (some { rip := 77, rsp := 4096 })).detail = some "stack overflow"
    ∧ (signalAbort "" SIGSEGV { si_code := SEGV_MAPERR, si_addr := 4000 }
        (some { rip := 77, rsp := 4096 })).wantTrace = true :=
  ⟨by decide, rfl⟩

/-- C1 (amended): the POSIX signal handler always requests a stack trace,
even when the fault is classified as a stack overflow; the structured-
exception backend requests a stack trace exactly for exception codes other
than EXCEPTION_STACK_OVERFLOW. -/
theorem stack_trace_request_policy :
    (∀ (pfx : String) (sig : Int) (info : SigInfo) (ctx : Option UContext),
      (signalAbort pfx sig info ctx).wantTrace = true)
    ∧ (∀ (pfx : String) (er : ExceptionRecord),
      (onWindowsException pfx er).wantTrace = true ↔
        er.exceptionCode ≠ WinExcCode.stackOverflow) := by
  constructor
  · intro pfx sig info ctx
    rfl
  · intro pfx er
    unfold onWindowsException
    split_ifs with h <;> simp [h]

/-- C8: at an EXCEPTION_FLT_INEXACT_RESULT structured exception the detail
carries a leading space and its own parentheses, so the summary line shows
a doubled pair of parentheses instead of the specified single pair. -/
theorem flt_inexact_result_malformed :
    (winClassify
      { exceptionCode := WinExcCode.fltInexactResult, numberParameters := 0,
        info1 := 0, info2 := 0, exceptionAddress := 64 }).detail =
      some " (floating-point inexact result)"
    ∧ (onWindowsException ""
      { exceptionCode := WinExcCode.fltInexactResult, numberParameters := 0,
        info1 := 0, info2 := 0, exceptionAddress := 64 }).reason =
      "FLOATING POINT ERROR ( (floating-point inexact result))" :=
  ⟨rfl, by decide⟩

set_option maxRecDepth 40000 in
/-- C3 counterexample: a std::system_error whose message has 200 characters
is cut by the 128-byte detail buffer, so the detail does not contain the
message. -/
theorem terminate_detail_truncates :
    ¬ containsStr
      (onTerminateDetail id
        (CppException.sysError (String.mk (List.replicate 200 'a')) "g" 1))
      (String.mk (List.replicate 200 'a')) := by
  intro h
  have hlen := containsStr_length h
  have h1 : (onTerminateDetail id (CppException.sysError
      (String.mk (List.replicate 200 'a')) "g" 1)).length = 127 := by decide
  have h2 : (String.mk (List.replicate 200 'a')).length = 200 := by decide
  omega

/-- C3 (amended): the terminate-handler classifier probes the in-flight
exception in order, first match wins, and, whenever the formatted text
fits the 128-byte detail buffer, (a) a std::system_error yields a detail
containing its message, its category name and its numeric code; (b) any
other std::exception yields a detail containing its demangled class name
and its message; (c) a thrown const char* is reported verbatim, with
"<null>" substituted for a null pointer; (d) any other thrown value yields
the detail "unknown exception"; longer texts are truncated to the first
127 bytes. In every case the category is "std::terminate()" and the result
is handed to the abort sequencer. -/
theorem terminate_classifier (dem : String → String)
    (pfx msg catName mn s : String) (code : Int)
    (ha : ("std::system_error: \"" ++ msg ++ "\" (" ++ catName ++ ":" ++
      toString code ++ ")").length ≤ 127)
    (hb1 : (dem mn).length ≤ 127)
    (hb2 : (dem mn ++ ": \"" ++ msg ++ "\"").length ≤ 127)
    (hc : ("exception (const char*): \"" ++ s ++ "\"").length ≤ 127) :
    (containsStr (onTerminateDetail dem (.sysError msg catName code)) msg
      ∧ containsStr (onTerminateDetail dem (.sysError msg catName code))
        catName
      ∧ containsStr (onTerminateDetail dem (.sysError msg catName code))
        (toString code))
    ∧ (containsStr (onTerminateDetail dem (.stdExc mn msg)) (dem mn)
      ∧ containsStr (onTerminateDetail dem (.stdExc mn msg)) msg)
    ∧ onTerminateDetail dem (.charPtr (some s)) =
        "exception (const char*): \"" ++ s ++ "\""
    ∧ onTerminateDetail dem (.charPtr none) =
        "exception (const char*): \"<null>\""
    ∧ onTerminateDetail dem .otherThrow = "unknown exception"
    ∧ ∀ e : CppException, onTerminate pfx dem (some e) =
        { reason := formatReason pfx "std::terminate()"
            (some (onTerminateDetail dem e)) none,
          wantTrace := true, inFaultCtx := false, instrAddr := none } := by
  have hDa : onTerminateDetail dem (.sysError msg catName code) =
      "std::system_error: \"" ++ msg ++ "\" (" ++ catName ++ ":" ++
        toString code ++ ")" := by
    show truncate 127 _ = _
    exact truncate_of_le _ _ ha
  have hDb : onTerminateDetail dem (.stdExc mn msg) =
      dem mn ++ ": \"" ++ msg ++ "\"" := by
    show truncate 127 (truncate 127 (dem mn) ++ ": \"" ++ msg ++ "\"") = _
    rw [truncate_of_le _ _ hb1]
    exact truncate_of_le _ _ hb2
  refine ⟨⟨?_, ?_, ?_⟩, ⟨?_, ?_⟩, ?_, rfl, rfl, fun e => rfl⟩
  · exact ⟨"std::system_error: \"",
      "\" (" ++ catName ++ ":" ++ toString code ++ ")",
      by rw [hDa]; try simp [String.append_assoc]⟩
  · exact ⟨"std::system_error: \"" ++ msg ++ "\" (",
      ":" ++ toString code ++ ")",
      by rw [hDa]; try simp [String.append_assoc]⟩
  · exact ⟨"std::system_error: \"" ++ msg ++ "\" (" ++ catName ++ ":", ")",
      by rw [hDa]; try simp [String.append_assoc]⟩
  · exact ⟨"", ": \"" ++ msg ++ "\"",
      by rw [hDb]; try simp [String.append_assoc]⟩
  · exact ⟨dem mn ++ ": \"", "\"",
      by rw [hDb]; try simp [String.append_assoc]⟩
  · show truncate 127 _ = _
    exact truncate_of_le _ _ hc

/-- C3 witness: at a concrete exception of each kind the classifier
produces the expected details through the 128-byte buffer. -/
theorem terminate_classifier_holds :
    (containsStr (onTerminateDetail id (.sysError "boom" "generic" 42))
        "boom"
      ∧ containsStr (onTerminateDetail id (.sysError "boom" "generic" 42))
        "generic"
      ∧ containsStr (onTerminateDetail id (.sysError "boom" "generic" 42))
        (toString (42 : Int)))
    ∧ (containsStr
        (onTerminateDetail id (.stdExc "St13runtime_error" "boom"))
        (id "St13runtime_error")
      ∧ containsStr
        (onTerminateDetail id (.stdExc "St13runtime_error" "boom")) "boom")
    ∧ onTerminateDetail id (.charPtr (some "oops")) =
        "exception (const char*): \"" ++ "oops" ++ "\""
    ∧ onTerminateDetail id (.charPtr none) =
        "exception (const char*): \"<null>\""
    ∧ onTerminateDetail id .otherThrow = "unknown exception"
    ∧ ∀ e : CppException, onTerminate "" id (some e) =
        { reason := formatReason "" "std::terminate()"
            (some (onTerminateDetail id e)) none,
          wantTrace := true, inFaultCtx := false, instrAddr := none } :=
  terminate_classifier id "" "boom" "generic" "St13runtime_error" "oops" 42
    (by decide) (by decide) (by decide) (by decide)

/-- C4: with OOOPSI_DISABLE_HANDLERS exactly "1" the constructor performs
no installation of any kind and changes nothing; with any other value, or
with the variable absent, the construction behaves exactly as with the
variable unset. -/
theorem disable_handlers_env (env : Option String) (os : OsModel)
    (s : ProcState) (henv : env ≠ some "1") :
    handlerSetupCtor (some "1") os s = ([], .done s)
    ∧ handlerSetupCtor env os s = handlerSetupCtor none os s := by
  refine ⟨rfl, ?_⟩
  simp [handlerSetupCtor, henv]

/-- C4 witness: the value "0" installs exactly as an absent variable, and
"1" skips installation. -/
theorem disable_handlers_env_holds :
    handlerSetupCtor (some "1") osAllOk initialState =
      ([], .done initialState)
    ∧ handlerSetupCtor (some "0") osAllOk initialState =
      handlerSetupCtor none osAllOk initialState :=
  disable_handlers_env (some "0") osAllOk initialState (by decide)

/-- C5: if the process-wide registration flag is already set, a second
construction performs no installation call and leaves all registration
state unchanged. -/
theorem reinstallation_idempotent (env : Option String) (os : OsModel)
    (s : ProcState) (h : s.handlersRegistered = true) :
    handlerSetupCtor env os s = ([], .done s) := by
  unfold handlerSetupCtor
  split_ifs with h1
  · rfl
  · rfl

/-- C5 witness: re-construction on an already-registered state is a
no-op. -/
theorem reinstallation_idempotent_holds :
    handlerSetupCtor none osAllOk
      { handlersRegistered := true, terminateHandlerSet := true,
        altStackSet := true, sigInstalled := [6, 11, 7, 4, 8] } =
      ([], .done
        { handlersRegistered := true, terminateHandlerSet := true,
          altStackSet := true, sigInstalled := [6, 11, 7, 4, 8] }) :=
  reinstallation_idempotent none osAllOk
    { handlersRegistered := true, terminateHandlerSet := true,
      altStackSet := true, sigInstalled := [6, 11, 7, 4, 8] } (by decide)

/-- C10: a construction disabled by OOOPSI_DISABLE_HANDLERS="1" changes no
process-wide state (in particular the registration flag stays unset), so a
later construction without the override performs the full installation. -/
theorem disabled_leaves_state (os : OsModel) (s : ProcState)
    (env2 : Option String) (h0 : s.handlersRegistered = false)
    (henv2 : env2 ≠ some "1") (hstk : os.sigaltstackOk = true)
    (hsig : ∀ sig : Int, os.sigactionOk sig = true) :
    handlerSetupCtor (some "1") os s = ([], .done s)
    ∧ handlerSetupCtor env2 os s =
      ([.setTerminateCall, .sigaltstackCall, .sigactionCall SIGABRT,
        .sigactionCall SIGSEGV, .sigactionCall SIGBUS, .sigactionCall SIGILL,
        .sigactionCall SIGFPE],
       .done
        { handlersRegistered := true, terminateHandlerSet := true,
          altStackSet := true,
          sigInstalled := s.sigInstalled ++
            [SIGABRT, SIGSEGV, SIGBUS, SIGILL, SIGFPE] }) := by
  refine ⟨rfl, ?_⟩
  simp [handlerSetupCtor, henv2, h0, hstk, installSignals, hsig]

/-- C10 witness: after a disabled construction from the initial state, a
plain construction still performs the full installation. -/
theorem disabled_leaves_state_holds :
    handlerSetupCtor (some "1") osAllOk initialState =
      ([], .done initialState)
    ∧ handlerSetupCtor none osAllOk initialState =
      ([.setTerminateCall, .sigaltstackCall, .sigactionCall SIGABRT,
        .sigactionCall SIGSEGV, .sigactionCall SIGBUS, .sigactionCall SIGILL,
        .sigactionCall SIGFPE],
       .done
        { handlersRegistered := true, terminateHandlerSet := true,
          altStackSet := true,
          sigInstalled := initialState.sigInstalled ++
            [SIGABRT, SIGSEGV, SIGBUS, SIGILL, SIGFPE] }) :=
  disabled_leaves_state osAllOk initialState none (by decide) (by decide)
    (by decide) (fun _ => rfl)

/-- At the first failing sigaction in the loop the constructor routes
through the abort sequencer with the failing signal as parameter. -/
theorem installSignals_fail (os : OsModel) (sigs : List Int)
    (hex : ∃ x ∈ sigs, os.sigactionOk x = false) :
    ∀ (s : ProcState) (calls : List OsCall), ∃ sigF calls2, sigF ∈ sigs ∧
      os.sigactionOk sigF = false ∧
      installSignals os s calls sigs =
        (calls2, .aborted (errAbort os "sigaction" sigF)) := by
  induction sigs with
  | nil => simp at hex
  | cons sig rest ih =>
    intro s calls
    by_cases hok : os.sigactionOk sig = true
    · obtain ⟨x, hx, hxf⟩ := hex
      rcases List.mem_cons.mp hx with hcase | hcase
      · rw [hcase] at hxf
        rw [hxf] at hok
        exact absurd hok (by decide)
      · obtain ⟨sigF, calls2, hmem, hf, heq⟩ := ih ⟨x, hcase, hxf⟩
          { s with sigInstalled := s.sigInstalled ++ [sig] }
          (calls ++ [.sigactionCall sig])
        refine ⟨sigF, calls2, List.mem_cons_of_mem _ hmem, hf, ?_⟩
        rw [installSignals, if_pos hok]
        exact heq
    · refine ⟨sig, calls ++ [.sigactionCall sig], List.mem_cons_self _ _,
        by simpa using hok, ?_⟩
      rw [installSignals, if_neg hok]

/-- C6: a failing sigaltstack or sigaction call during setup is routed
through the abort sequencer with a reason naming the failing call, its
parameter and the OS error text for the current errno, and setup never
finishes past such a failure. -/
theorem setup_failure_aborts (env : Option String) (os : OsModel)
    (s : ProcState) (henv : env ≠ some "1")
    (hreg : s.handlersRegistered = false) :
    (os.sigaltstackOk = false →
      handlerSetupCtor env os s =
        ([.setTerminateCall, .sigaltstackCall],
          .aborted (errAbort os "sigaltstack" s_ALT_STACK_SIZE)))
    ∧ (os.sigaltstackOk = true →
      (∃ x ∈ [SIGABRT, SIGSEGV, SIGBUS, SIGILL, SIGFPE],
        os.sigactionOk x = false) →
      ∃ sigF calls2, sigF ∈ [SIGABRT, SIGSEGV, SIGBUS, SIGILL, SIGFPE] ∧
        os.sigactionOk sigF = false ∧
        handlerSetupCtor env os s =
          (calls2, .aborted (errAbort os "sigaction" sigF)))
    ∧ (∀ (what : String) (param : Int),
      (what ++ "(" ++ toString param ++ ") failed: " ++ os.errnoText).length
          ≤ 255 →
      containsStr (errAbort os what param).reason what
      ∧ containsStr (errAbort os what param).reason (toString param)
      ∧ containsStr (errAbort os what param).reason os.errnoText)
    ∧ ((os.sigaltstackOk = false ∨
        ∃ x ∈ [SIGABRT, SIGSEGV, SIGBUS, SIGILL, SIGFPE],
          os.sigactionOk x = false) →
      ∀ (calls : List OsCall) (s2 : ProcState),
        handlerSetupCtor env os s ≠ (calls, .done s2)) := by
  have hstep : ∀ hstk : os.sigaltstackOk = true, handlerSetupCtor env os s =
      installSignals os
        { handlersRegistered := true, terminateHandlerSet := true,
          altStackSet := true, sigInstalled := s.sigInstalled }
        [.setTerminateCall, .sigaltstackCall]
        [SIGABRT, SIGSEGV, SIGBUS, SIGILL, SIGFPE] := by
    intro hstk
    simp [handlerSetupCtor, henv, hreg, hstk]
  have hfailstep : os.sigaltstackOk = false → handlerSetupCtor env os s =
      ([.setTerminateCall, .sigaltstackCall],
        .aborted (errAbort os "sigaltstack" s_ALT_STACK_SIZE)) := by
    intro hstk
    simp [handlerSetupCtor, henv, hreg, hstk]
  have hsa : ∀ hstk : os.sigaltstackOk = true,
      (∃ x ∈ [SIGABRT, SIGSEGV, SIGBUS, SIGILL, SIGFPE],
        os.sigactionOk x = false) →
      ∃ sigF calls2, sigF ∈ [SIGABRT, SIGSEGV, SIGBUS, SIGILL, SIGFPE] ∧
        os.sigactionOk sigF = false ∧
        handlerSetupCtor env os s =
          (calls2, .aborted (errAbort os "sigaction" sigF)) := by
    intro hstk hex
    obtain ⟨sigF, calls2, hmem, hf, heq⟩ := installSignals_fail os _ hex
      { handlersRegistered := true, terminateHandlerSet := true,
        altStackSet := true, sigInstalled := s.sigInstalled }
      [.setTerminateCall, .sigaltstackCall]
    exact ⟨sigF, calls2, hmem, hf, by rw [hstep hstk]; exact heq⟩
  refine ⟨hfailstep, hsa, ?_, ?_⟩
  · intro what param hfit
    have hr : (errAbort os what param).reason =
        what ++ "(" ++ toString param ++ ") failed: " ++ os.errnoText := by
      show truncate 255 _ = _
      exact truncate_of_le _ _ hfit
    refine ⟨⟨"", "(" ++ toString param ++ ") failed: " ++ os.errnoText,
        by rw [hr]; try simp [String.append_assoc]⟩,
      ⟨what ++ "(", ") failed: " ++ os.errnoText,
        by rw [hr]; try simp [String.append_assoc]⟩,
      ⟨what ++ "(" ++ toString param ++ ") failed: ", "",
        by rw [hr]; try simp [String.append_assoc]⟩⟩
  · rintro (hstk | hex) calls s2 hdone
    · rw [hfailstep hstk] at hdone
      simp at hdone
    · rcases hb : os.sigaltstackOk with hfalse | htrue
      · rw [hfailstep hb] at hdone
        simp at hdone
      · obtain ⟨sigF, calls2, _, _, heq⟩ := hsa hb hex
        rw [heq] at hdone
        simp at hdone

/-- C6 witness: with a failing sigaltstack the construction aborts with a
reason containing "sigaltstack", the size parameter and the errno text. -/
theorem setup_failure_aborts_holds :
    (osNoAltStack.sigaltstackOk = false →
      handlerSetupCtor none osNoAltStack initialState =
        ([.setTerminateCall, .sigaltstackCall],
          .aborted (errAbort osNoAltStack "sigaltstack" s_ALT_STACK_SIZE)))
    ∧ (osNoAltStack.sigaltstackOk = true →
      (∃ x ∈ [SIGABRT, SIGSEGV, SIGBUS, SIGILL, SIGFPE],
        osNoAltStack.sigactionOk x = false) →
      ∃ sigF calls2, sigF ∈ [SIGABRT, SIGSEGV, SIGBUS, SIGILL, SIGFPE] ∧
        osNoAltStack.sigactionOk sigF = false ∧
        handlerSetupCtor none osNoAltStack initialState =
          (calls2, .aborted (errAbort osNoAltStack "sigaction" sigF)))
    ∧ (∀ (what : String) (param : Int),
      (what ++ "(" ++ toString param ++ ") failed: " ++
          osNoAltStack.errnoText).length ≤ 255 →
      containsStr (errAbort osNoAltStack what param).reason what
      ∧ containsStr (errAbort osNoAltStack what param).reason
          (toString param)
      ∧ containsStr (errAbort osNoAltStack what param).reason
          osNoAltStack.errnoText)
    ∧ ((osNoAltStack.sigaltstackOk = false ∨
        ∃ x ∈ [SIGABRT, SIGSEGV, SIGBUS, SIGILL, SIGFPE],
          osNoAltStack.sigactionOk x = false) →
      ∀ (calls : List OsCall) (s2 : ProcState),
        handlerSetupCtor none osNoAltStack initialState ≠
          (calls, .done s2)) :=
  setup_failure_aborts none osNoAltStack initialState (by decide) (by decide)

end Ooopsi
